import Mathlib

/-!
Verification of the HealthCare-IMS server (Express + drizzle storage layer).

The development embeds the storage layer (`server/storage.ts`, class
`DatabaseStorage`) and the HTTP route handlers (`registerRoutes`) as pure
Lean functions over an explicit database state.  The postgres tables
declared in `shared/schema.ts` become lists of records; the unique
constraints declared there (`programs.code`, `(enrollments.clientId,
enrollments.programId)`) are enforced by the embedded insert operations,
which surface the database's duplicate-key error exactly as the pg driver
does: as an error value carrying the standard
"duplicate key value violates unique constraint ..." message.
-/

namespace HealthIMS

/-! ## Generic string helpers -/

/-- Postgres LIKE pattern matching over characters. In a pattern, the
 metacharacter `%` matches any sequence of characters, `_` matches exactly
 one character, and the default escape character `\` makes the following
 pattern character match only itself (so `\%` matches a literal percent
 sign and `\h` a literal h). A pattern consisting of a dangling trailing
 escape is an error in postgres; it is modelled as matching nothing, and is
 unreachable from the route, whose patterns always end in `%` (a query
 ending in `\` turns that closing `%` into a literal via the escape pair).
 Every other pattern character matches only itself. -/
def likeMatch : List Char → List Char → Bool
  | [], [] => true
  | [], _ :: _ => false
  | a :: ps, [] =>
    if a = '\\' then false
    else a = '%' && likeMatch ps []
  | a :: ps, c :: s =>
    if a = '\\' then ps.head? == some c && likeMatch ps.tail s
    else if a = '%' then likeMatch ps (c :: s) || likeMatch (a :: ps) s
    else if a = '_' then likeMatch ps s
    else a == c && likeMatch ps s

/-- The character list of a string with every character lower-cased; the case
 folding that postgres applies to both operands of ILIKE. -/
def lowerStr (s : String) : List Char := s.data.map Char.toLower

/-- Postgres `s ILIKE pat`: LIKE matching — `%`, `_` and the `\` escape
 included — after case-folding both sides. -/
def ilike (s pat : String) : Bool := likeMatch (lowerStr pat) (lowerStr s)

/-- Case-insensitive substring test, the specification-level reading of
 `ILIKE %q%` for a needle `q` free of metacharacters and of the escape. -/
def ciSubstr (q s : String) : Bool := decide (lowerStr q <:+: lowerStr s)

/-- JavaScript `message.includes(pat)`: substring containment. -/
def strIncludes (s pat : String) : Bool := decide (pat.data <:+: s.data)

/-- The id assigned by a postgres `serial` column to a freshly inserted row:
 one past the largest id in use. -/
def nextRowId (ids : List Nat) : Nat := ids.foldr max 0 + 1

/-! ## Data model (shared/schema.ts) -/

/-- A row of the `programs` table. -/
structure Program where
  id : Nat
  name : String
  code : String
  description : String
  requiredInfo : List String
deriving Repr, DecidableEq

/-- A row of the `clients` table (`createdAt` timestamp omitted; no claim
 mentions it). -/
structure Client where
  id : Nat
  clientId : String
  name : String
  dob : String
  gender : String
  phone : String
  address : String
  email : Option String
  emergencyContact : String
  status : String
deriving Repr, DecidableEq

/-- A row of the `enrollments` table. Timestamps are modelled as naturals. -/
structure Enrollment where
  id : Nat
  clientId : Nat
  programId : Nat
  enrollDate : Nat
  notes : Option String
  status : String
  symptomSeverity : Option String
  riskLevel : Option String
  followUpRequired : Bool
deriving Repr, DecidableEq

/-- The database state: the three tables the claims are about. -/
structure DB where
  programs : List Program
  clients : List Client
  enrollments : List Enrollment
deriving Repr, DecidableEq

/-- `InsertProgram` (insertProgramSchema: a program row minus `id`). -/
structure InsertProgram where
  name : String
  code : String
  description : String
  requiredInfo : List String
deriving Repr, DecidableEq

/-- The enrollment creation payload as accepted by the POST /api/enrollments
 zod schema (`createEnrollmentSchema` in registerRoutes): clientId, programId
 and enrollDate required; notes, status, symptomSeverity and riskLevel
 arbitrary optional strings; followUpRequired an optional boolean. -/
structure InsertEnrollment where
  clientId : Nat
  programId : Nat
  enrollDate : Nat
  notes : Option String
  status : Option String
  symptomSeverity : Option String
  riskLevel : Option String
  followUpRequired : Option Bool
deriving Repr, DecidableEq

/-- A low-level database error as seen by the store. Postgres reports a
 duplicate key on a unique constraint with the standard message naming the
 constraint; the driver does not reword it. -/
structure DbError where
  message : String
deriving Repr, DecidableEq

/-- The postgres duplicate-key error message for a named unique constraint. -/
def uniqueViolationMsg (constraintName : String) : String :=
  "duplicate key value violates unique constraint \"" ++ constraintName ++ "\""

/-- An HTTP response: status code plus the `message` field of the JSON body
 (`none` for responses whose body is the created/affected entity). -/
structure Resp where
  status : Nat
  message : Option String
deriving Repr, DecidableEq

/-! ## Storage layer (server/storage.ts, class DatabaseStorage) -/

/-- `getProgramById`: `select ... where eq(programs.id, id)`. -/
def getProgramById (st : DB) (i : Nat) : Option Program :=
  st.programs.find? (fun p => p.id == i)

/-- `getProgramByCode`: `select ... where eq(programs.code, code)` — an exact,
 case-sensitive comparison. -/
def getProgramByCode (st : DB) (code : String) : Option Program :=
  st.programs.find? (fun p => p.code == code)

/-- `createProgram`: a bare insert; only the database-level unique constraint
 on `programs.code` can reject it, surfacing the raw duplicate-key error. -/
def createProgram (st : DB) (input : InsertProgram) : Except DbError (Program × DB) :=
  if st.programs.any (fun p => p.code == input.code) then
    .error ⟨uniqueViolationMsg "programs_code_unique"⟩
  else
    let p : Program :=
      { id := nextRowId (st.programs.map Program.id)
        name := input.name
        code := input.code
        description := input.description
        requiredInfo := input.requiredInfo }
    .ok (p, { st with programs := st.programs ++ [p] })

/-- `getClients`: `select ... orderBy(desc(clients.id))`. -/
def getClients (st : DB) : List Client :=
  st.clients.mergeSort (fun a b => decide (b.id ≤ a.id))

/-- `getClientById`: `select ... where eq(clients.id, id)`. -/
def getClientById (st : DB) (i : Nat) : Option Client :=
  st.clients.find? (fun c => c.id == i)

/-- `searchClients`: `if (!query) return []`, else the clients whose name,
 clientId or phone matches `ILIKE %query%`. The JavaScript falsiness guard
 rejects only the empty string. -/
def searchClients (st : DB) (query : String) : List Client :=
  if query = "" then []
  else
    st.clients.filter (fun c =>
      ilike c.name ("%" ++ query ++ "%")
        || ilike c.clientId ("%" ++ query ++ "%")
        || ilike c.phone ("%" ++ query ++ "%"))

/-- `createEnrollment`: a bare insert of the validated payload; columns absent
 from the payload take their declared defaults (`status` "active",
 `followUpRequired` false). Only the database-level unique constraint on
 `(clientId, programId)` can reject it, surfacing the raw duplicate-key
 error; the store performs no translation. -/
def createEnrollment (st : DB) (input : InsertEnrollment) :
    Except DbError (Enrollment × DB) :=
  if st.enrollments.any (fun e =>
      e.clientId == input.clientId && e.programId == input.programId) then
    .error ⟨uniqueViolationMsg "enrollments_client_id_program_id_unique"⟩
  else
    let e : Enrollment :=
      { id := nextRowId (st.enrollments.map Enrollment.id)
        clientId := input.clientId
        programId := input.programId
        enrollDate := input.enrollDate
        notes := input.notes
        status := input.status.getD "active"
        symptomSeverity := input.symptomSeverity
        riskLevel := input.riskLevel
        followUpRequired := input.followUpRequired.getD false }
    .ok (e, { st with enrollments := st.enrollments ++ [e] })

/-- `deleteEnrollment`: delete every row matching the (clientId, programId)
 pair, returning whether any row was deleted (`result.length > 0`). -/
def deleteEnrollment (st : DB) (cid pid : Nat) : Bool × DB :=
  let deleted := st.enrollments.filter (fun e =>
    e.clientId == cid && e.programId == pid)
  let remaining := st.enrollments.filter (fun e =>
    !(e.clientId == cid && e.programId == pid))
  (decide (deleted.length > 0), { st with enrollments := remaining })

/-- `getProgramsWithEnrollmentCount`, step 1: the
 `select programId, count(*) from enrollments group by programId` aggregate,
 as an association list keyed by programId. -/
def groupByCounts (es : List Enrollment) : List (Nat × Nat) :=
  ((es.map Enrollment.programId).dedup).map (fun pid =>
    (pid, (es.filter (fun e => e.programId == pid)).length))

/-- `getProgramsWithEnrollmentCount`, step 2: every program paired with its
 count looked up in the aggregate map, `|| 0` when absent. -/
def getProgramsWithEnrollmentCount (st : DB) : List (Program × Nat) :=
  st.programs.map (fun p => (p, ((groupByCounts st.enrollments).lookup p.id).getD 0))

/-! ## Route handlers (server/routes.ts, registerRoutes) -/

/-- POST /api/programs: zod-validate (modelled by the typed input), reject an
 existing code with 409 via `getProgramByCode`, else `createProgram`; any
 thrown error becomes a 500 with a generic message. -/
def postPrograms (st : DB) (input : InsertProgram) : Resp × DB :=
  match getProgramByCode st input.code with
  | some _ => (⟨409, some "Program code already exists"⟩, st)
  | none =>
    match createProgram st input with
    | .ok (_, st1) => (⟨201, none⟩, st1)
    | .error _ => (⟨500, some "Failed to create program"⟩, st)

/-- GET /api/clients: `if (search)` — a search parameter that is present but
 empty is falsy in JavaScript, so only a non-empty search string reaches
 `searchClients`; every other request returns `getClients()`. -/
def clientsRoute (st : DB) (search : Option String) : List Client :=
  match search with
  | some q => if q ≠ "" then searchClients st q else getClients st
  | none => getClients st

/-- POST /api/enrollments: after zod validation (modelled by the typed body),
 404 when the client id does not resolve, 404 when the program id does not
 resolve, then insert; an error whose message includes "already enrolled"
 would be returned as 409, every other thrown error as a generic 500. -/
def postEnrollments (st : DB) (body : InsertEnrollment) : Resp × DB :=
  if (getClientById st body.clientId).isNone then
    (⟨404, some "Client not found"⟩, st)
  else if (getProgramById st body.programId).isNone then
    (⟨404, some "Program not found"⟩, st)
  else
    match createEnrollment st body with
    | .ok (_, st1) => (⟨201, none⟩, st1)
    | .error err =>
      if strIncludes err.message "already enrolled" then
        (⟨409, some err.message⟩, st)
      else
        (⟨500, some "Failed to create enrollment"⟩, st)

/-- DELETE /api/clients/:clientId/programs/:programId: delete and map the
 store's boolean onto 204 (deleted) / 404 (no such enrollment). -/
def deleteEnrollmentRoute (st : DB) (cid pid : Nat) : Resp × DB :=
  let r := deleteEnrollment st cid pid
  if r.1 then (⟨204, none⟩, r.2) else (⟨404, some "Enrollment not found"⟩, r.2)

/-- Every (method, path) pair registered by `registerRoutes`, in source
 order. -/
def registeredRoutes : List (String × String) :=
  [ ("GET", "/api/health")
  , ("GET", "/api/programs")
  , ("GET", "/api/programs/stats")
  , ("GET", "/api/programs/:id")
  , ("POST", "/api/programs")
  , ("GET", "/api/clients")
  , ("GET", "/api/clients/:id")
  , ("GET", "/api/clients/:id/details")
  , ("POST", "/api/clients")
  , ("GET", "/api/enrollments")
  , ("GET", "/api/clients/:clientId/enrollments")
  , ("POST", "/api/enrollments")
  , ("DELETE", "/api/clients/:clientId/programs/:programId")
  , ("GET", "/api/clients/:clientId/visits")
  , ("POST", "/api/visits")
  , ("GET", "/api/clients/:clientId/notes")
  , ("POST", "/api/notes")
  , ("GET", "/api/stats") ]

/-- The operation names declared by the `IStorage` interface in
 server/storage.ts, in source order. -/
def iStorageMembers : List String :=
  [ "getUser", "getUserByUsername", "createUser"
  , "getPrograms", "getProgramById", "getProgramByCode", "createProgram"
  , "getClients", "getClientById", "getClientByClientId", "createClient"
  , "searchClients"
  , "getEnrollments", "getEnrollmentById", "getEnrollmentsByClientId"
  , "getEnrollmentsByProgramId", "createEnrollment", "deleteEnrollment"
  , "getClientDetails", "getClientWithEnrollments"
  , "getVisitsByClientId", "createVisit"
  , "getNotesByClientId", "createNote"
  , "getProgramsWithEnrollmentCount", "sessionStore" ]

/-! ## Specification-side predicates and concrete states -/

/-- A sample client row. -/
def johnClient : Client :=
  { id := 1, clientId := "HIS-2025-001", name := "John Doe"
  , dob := "1990-01-01", gender := "male", phone := "0700000001"
  , address := "Nairobi", email := none, emergencyContact := "Jane Doe"
  , status := "active" }

/-- A sample program row. -/
def tbProgram : Program :=
  { id := 1, name := "Tuberculosis Care", code := "TB"
  , description := "TB treatment and follow up", requiredInfo := ["symptoms"] }

/-- A sample enrollment row linking the two. -/
def baseEnrollment : Enrollment :=
  { id := 1, clientId := 1, programId := 1, enrollDate := 0, notes := none
  , status := "active", symptomSeverity := some "mild", riskLevel := some "low"
  , followUpRequired := false }

/-- One client enrolled in one program. -/
def dbEnrolled : DB :=
  { programs := [tbProgram], clients := [johnClient]
  , enrollments := [baseEnrollment] }

/-- One client and one program, no enrollments. -/
def dbEmptyEnroll : DB :=
  { programs := [tbProgram], clients := [johnClient], enrollments := [] }

/-- One program with code "TB", nothing else. -/
def dbTB : DB := { programs := [tbProgram], clients := [], enrollments := [] }

/-- One client named "John Doe", nothing else. -/
def dbJohn : DB := { programs := [], clients := [johnClient], enrollments := [] }

/-- A program payload whose code is the lower-case form of an existing one. -/
def lowerTB : InsertProgram :=
  { name := "TB lower", code := "tb"
  , description := "same code in a different letter case", requiredInfo := [] }

/-- A program payload whose code duplicates an existing one exactly. -/
def exactTB : InsertProgram :=
  { name := "TB again", code := "TB"
  , description := "same code in the same case", requiredInfo := [] }

/-- A program payload with a fresh code. -/
def freshHiv : InsertProgram :=
  { name := "HIV Care", code := "HIV", description := "a fresh code"
  , requiredInfo := [] }

/-- An enrollment payload referencing a client id that does not resolve. -/
def wBodyNoClient : InsertEnrollment :=
  { clientId := 2, programId := 1, enrollDate := 0, notes := none
  , status := none, symptomSeverity := none, riskLevel := none
  , followUpRequired := none }

/-- An enrollment payload referencing a program id that does not resolve. -/
def wBodyNoProgram : InsertEnrollment :=
  { clientId := 1, programId := 2, enrollDate := 0, notes := none
  , status := none, symptomSeverity := none, riskLevel := none
  , followUpRequired := none }

/-- An enrollment payload whose severity and risk fields lie outside the
 documented enumerations; the route's zod schema accepts any string. -/
def wildBody : InsertEnrollment :=
  { clientId := 1, programId := 1, enrollDate := 5, notes := none
  , status := none, symptomSeverity := some "critical"
  , riskLevel := some "extreme", followUpRequired := none }

/-- A well-formed enrollment payload relying on the defaults. -/
def okBody : InsertEnrollment :=
  { clientId := 1, programId := 1, enrollDate := 3, notes := some "first visit"
  , status := none, symptomSeverity := some "mild", riskLevel := some "low"
  , followUpRequired := none }

/-- The row `createEnrollment` builds from `okBody` on `dbEmptyEnroll`. -/
def okEnrollment : Enrollment :=
  { id := 1, clientId := 1, programId := 1, enrollDate := 3
  , notes := some "first visit", status := "active"
  , symptomSeverity := some "mild", riskLevel := some "low"
  , followUpRequired := false }

/-- `dbEmptyEnroll` after inserting `okEnrollment`. -/
def dbAfterOk : DB := { dbEmptyEnroll with enrollments := [okEnrollment] }

/-- A duplicate of the enrollment already present in `dbEnrolled`. -/
def dupBody : InsertEnrollment :=
  { clientId := 1, programId := 1, enrollDate := 7, notes := none
  , status := none, symptomSeverity := none, riskLevel := none
  , followUpRequired := none }

/-! ## Helper lemmas -/

theorem getClients_sorted (st : DB) :
    List.Pairwise (fun a b : Client => b.id ≤ a.id) (getClients st) := by
  have h := @List.sorted_mergeSort Client
    (fun a b : Client => decide (b.id ≤ a.id))
    (fun a b c hab hbc => by
      simp only [decide_eq_true_eq] at hab hbc ⊢
      omega)
    (fun a b => by
      simp only [Bool.or_eq_true, decide_eq_true_eq]
      omega)
    st.clients
  exact h.imp (fun hx => by simpa using hx)

theorem getClients_perm (st : DB) : (getClients st).Perm st.clients :=
  List.mergeSort_perm st.clients _

theorem likeMatch_pct_nil : ∀ s : List Char, likeMatch ['%'] s = true := by
  intro s
  induction s with
  | nil => simp [likeMatch]
  | cons c s ih => simp [likeMatch, ih]

theorem likeMatch_append_pct :
    ∀ q : List Char, (∀ c ∈ q, c ≠ '%' ∧ c ≠ '_' ∧ c ≠ '\\') →
      ∀ s : List Char, (likeMatch (q ++ ['%']) s = true ↔ q <+: s) := by
  intro q
  induction q with
  | nil =>
    intro _ s
    simp only [List.nil_append, likeMatch_pct_nil, true_iff]
    exact ⟨s, rfl⟩
  | cons a q ih =>
    intro hw s
    have ha := hw a (by simp)
    cases s with
    | nil => simp [likeMatch, ha.1, ha.2.2]
    | cons c s =>
      rw [List.cons_append]
      simp only [likeMatch, if_neg ha.2.2, if_neg ha.1, if_neg ha.2.1,
        Bool.and_eq_true, beq_iff_eq, List.cons_prefix_cons]
      exact and_congr_right (fun _ => ih (fun x hx => hw x (by simp [hx])) s)

theorem likeMatch_pct_cons (p : List Char) :
    ∀ s : List Char,
      (likeMatch ('%' :: p) s = true ↔ ∃ t, t <:+ s ∧ likeMatch p t = true) := by
  intro s
  induction s with
  | nil => simp [likeMatch]
  | cons c s ih =>
    have hstep : likeMatch ('%' :: p) (c :: s)
        = (likeMatch p (c :: s) || likeMatch ('%' :: p) s) := by
      simp [likeMatch]
    rw [hstep, Bool.or_eq_true, ih]
    constructor
    · rintro (h | ⟨t, ht, hm⟩)
      · exact ⟨c :: s, List.suffix_refl _, h⟩
      · exact ⟨t, ht.trans (List.suffix_cons c s), hm⟩
    · rintro ⟨t, ht, hm⟩
      rcases List.suffix_cons_iff.mp ht with h | h
      · subst h; exact Or.inl hm
      · exact Or.inr ⟨t, h, hm⟩

theorem likeMatch_contains (q : List Char)
    (hw : ∀ c ∈ q, c ≠ '%' ∧ c ≠ '_' ∧ c ≠ '\\')
    (s : List Char) : likeMatch ('%' :: (q ++ ['%'])) s = true ↔ q <:+: s := by
  rw [likeMatch_pct_cons]
  constructor
  · rintro ⟨t, ht, hm⟩
    exact List.infix_iff_prefix_suffix.mpr
      ⟨t, (likeMatch_append_pct q hw t).mp hm, ht⟩
  · intro h
    rcases List.infix_iff_prefix_suffix.mp h with ⟨t, hp, hs⟩
    exact ⟨t, hs, (likeMatch_append_pct q hw t).mpr hp⟩

theorem toLower_ne_wild {c : Char} (h1 : c ≠ '%') (h2 : c ≠ '_')
    (h3 : c ≠ '\\') :
    c.toLower ≠ '%' ∧ c.toLower ≠ '_' ∧ c.toLower ≠ '\\' := by
  have key : ∀ n, n < 91 → 65 ≤ n →
      Char.ofNat (n + 32) ≠ '%' ∧ Char.ofNat (n + 32) ≠ '_'
        ∧ Char.ofNat (n + 32) ≠ '\\' := by decide
  simp only [Char.toLower]
  split
  · next h => exact key c.toNat (Nat.lt_succ_of_le h.2) h.1
  · exact ⟨h1, h2, h3⟩

theorem pct_pat_data (q : String) :
    ("%" ++ q ++ "%").data = '%' :: (q.data ++ ['%']) := by
  rw [String.data_append, String.data_append]
  show (['%'] ++ q.data) ++ ['%'] = _
  simp

theorem ilike_pct_iff (q s : String)
    (hw : ∀ c ∈ q.data, c ≠ '%' ∧ c ≠ '_' ∧ c ≠ '\\') :
    (ilike s ("%" ++ q ++ "%") = true) ↔ (ciSubstr q s = true) := by
  have hlow : ('%' : Char).toLower = '%' := by decide
  have hdata : lowerStr ("%" ++ q ++ "%") = '%' :: (lowerStr q ++ ['%']) := by
    unfold lowerStr
    rw [pct_pat_data]
    simp [hlow]
  unfold ilike ciSubstr
  rw [hdata, likeMatch_contains]
  · simp
  · intro c hc
    rcases List.mem_map.mp hc with ⟨d, hd, rfl⟩
    exact toLower_ne_wild (hw d hd).1 (hw d hd).2.1 (hw d hd).2.2

theorem searchClients_eq_filter (st : DB) (q : String) (h0 : q ≠ "")
    (hw : ∀ c ∈ q.data, c ≠ '%' ∧ c ≠ '_' ∧ c ≠ '\\') :
    searchClients st q = st.clients.filter (fun c =>
      ciSubstr q c.name || ciSubstr q c.clientId || ciSubstr q c.phone) := by
  unfold searchClients
  rw [if_neg h0]
  apply List.filter_congr
  intro c _
  rw [Bool.eq_iff_iff]
  simp only [Bool.or_eq_true]
  rw [ilike_pct_iff q c.name hw, ilike_pct_iff q c.clientId hw,
    ilike_pct_iff q c.phone hw]

theorem lookup_map_pair (l : List Nat) (f : Nat → Nat) (x : Nat) :
    (l.map (fun k => (k, f k))).lookup x
      = if x ∈ l then some (f x) else none := by
  induction l with
  | nil => simp [List.lookup]
  | cons a t ih =>
    simp only [List.map_cons, List.lookup, List.mem_cons]
    by_cases h : x = a
    · simp [h]
    · simp [h, ih, beq_false_of_ne h]

theorem lookup_groupByCounts (es : List Enrollment) (pid : Nat) :
    (((groupByCounts es).lookup pid).getD 0)
      = (es.filter (fun e => e.programId == pid)).length := by
  unfold groupByCounts
  rw [lookup_map_pair]
  split
  · rfl
  · next h =>
    have hnone : ∀ e ∈ es, ¬(e.programId == pid) = true := by
      intro e he hbe
      apply h
      rw [List.mem_dedup]
      exact List.mem_map.mpr ⟨e, he, (beq_iff_eq.mp hbe)⟩
    rw [List.filter_eq_nil_iff.mpr hnone]
    rfl

theorem filter_length_pos_iff {α : Type} (p : α → Bool) (l : List α) :
    (0 < (l.filter p).length) ↔ ∃ x ∈ l, p x = true := by
  constructor
  · intro h
    rcases List.exists_mem_of_length_pos h with ⟨x, hx⟩
    exact ⟨x, (List.mem_filter.mp hx).1, (List.mem_filter.mp hx).2⟩
  · rintro ⟨x, hxl, hpx⟩
    exact List.length_pos_of_mem (List.mem_filter.mpr ⟨hxl, hpx⟩)

/-! ## Claim theorems -/

set_option maxRecDepth 40000 in
/-- C1 (code-bug evidence): `DatabaseStorage.createEnrollment` performs a bare
 insert and never translates the database's duplicate-key error, so its
 message is the raw postgres one, which does not contain "already enrolled";
 the route's 409 branch therefore never fires and a duplicate
 POST /api/enrollments answers a generic 500 instead of the specified 409
 ConflictError.  The pre-existing enrollment row is unmodified (the state is
 returned unchanged, the original row still present). -/
theorem c1_duplicate_enrollment_gives_500 :
    postEnrollments dbEnrolled dupBody
        = (⟨500, some "Failed to create enrollment"⟩, dbEnrolled)
  ∧ strIncludes (uniqueViolationMsg "enrollments_client_id_program_id_unique")
        "already enrolled" = false
  ∧ baseEnrollment ∈ (postEnrollments dbEnrolled dupBody).2.enrollments := by
  refine ⟨by decide, by decide, by decide⟩

/-- C2 counterexample: with a program of code "TB" in the table, creating a
 program whose code is "tb" is not rejected with 409 and is not stored
 upper-cased: the call succeeds with 201 and the table now holds both "TB"
 and, verbatim, "tb". -/
theorem c2_counterexample_lowercase_code_accepted :
    (postPrograms dbTB lowerTB).1.status = 201
  ∧ (postPrograms dbTB lowerTB).2.programs.map Program.code = ["TB", "tb"] := by
  refine ⟨by decide, by decide⟩

/-- C2 (amended): `createProgram` stores the code exactly as given, with no
 case normalization anywhere on the server; the duplicate check is the
 route's `getProgramByCode`, an exact case-sensitive comparison.  A payload
 whose code equals an existing code exactly is rejected with 409 and nothing
 is persisted; otherwise the call returns 201 and the code is appended to
 the table verbatim. -/
theorem c2_program_code_stored_verbatim (st : DB) (input : InsertProgram) :
    ((∃ p ∈ st.programs, p.code = input.code) →
        postPrograms st input = (⟨409, some "Program code already exists"⟩, st))
  ∧ ((∀ p ∈ st.programs, p.code ≠ input.code) →
        (postPrograms st input).1 = ⟨201, none⟩
      ∧ (postPrograms st input).2.programs.map Program.code
          = st.programs.map Program.code ++ [input.code]) := by
  constructor
  · rintro ⟨p, hp, hcode⟩
    have hfind : (getProgramByCode st input.code).isSome := by
      unfold getProgramByCode
      rw [List.find?_isSome]
      exact ⟨p, hp, by simp [hcode]⟩
    rcases hf : getProgramByCode st input.code with _ | q
    · rw [hf] at hfind
      simp at hfind
    · simp [postPrograms, hf]
  · intro hall
    have hnone : getProgramByCode st input.code = none := by
      unfold getProgramByCode
      rw [List.find?_eq_none]
      intro p hp
      simp [hall p hp]
    have hany : st.programs.any (fun p => p.code == input.code) = false := by
      rw [Bool.eq_false_iff]
      intro hc
      rcases List.any_eq_true.mp hc with ⟨p, hp, hpc⟩
      exact hall p hp (beq_iff_eq.mp hpc)
    constructor
    · simp [postPrograms, hnone, createProgram, hany]
    · simp [postPrograms, hnone, createProgram, hany]

/-- C2 witness: both branches of the amended claim at concrete inputs — an
 exact duplicate code is refused with nothing stored, a fresh code is stored
 verbatim. -/
theorem c2_program_code_stored_verbatim_witness :
    postPrograms dbTB exactTB = (⟨409, some "Program code already exists"⟩, dbTB)
  ∧ ((postPrograms dbTB freshHiv).1 = ⟨201, none⟩
      ∧ (postPrograms dbTB freshHiv).2.programs.map Program.code
          = dbTB.programs.map Program.code ++ ["HIV"]) :=
  ⟨(c2_program_code_stored_verbatim dbTB exactTB).1 ⟨tbProgram, by decide, rfl⟩,
   (c2_program_code_stored_verbatim dbTB freshHiv).2 (by decide)⟩

/-- C3 (code-bug evidence): neither `deleteProgram` nor `deleteClient` is
 declared by the `IStorage` interface, and the only DELETE route
 `registerRoutes` installs is the enrollment one — there is no
 DELETE /api/programs/:id or /api/clients/:id handler at all, even though
 the frontend invokes both, so the specified store-layer dependent-row check
 cannot and does not exist. -/
theorem c3_no_delete_operations_exist :
    "deleteProgram" ∉ iStorageMembers
  ∧ "deleteClient" ∉ iStorageMembers
  ∧ registeredRoutes.filter (fun r => r.1 == "DELETE")
      = [("DELETE", "/api/clients/:clientId/programs/:programId")] := by
  refine ⟨by decide, by decide, by decide⟩

/-- C5 counterexample, four failures of the claim as stated, all on the
 one-client state whose client is named "John Doe": (i) a whitespace-only
 query is not guarded — the JavaScript falsiness test `if (!query)` rejects
 only the empty string — so searching for a single space returns the client,
 not the empty result set; (ii) the query "J%e" returns the client although
 it is a case-insensitive substring of none of the searched fields, because
 `%` is a LIKE wildcard; (iii) likewise "J_hn" via the one-character
 wildcard `_`; (iv) likewise the backslash query "Jo\h", because ILIKE
 consumes the backslash as its escape character and matches the literal
 "joh". -/
theorem c5_counterexample_searchClients :
    (searchClients dbJohn " " = [johnClient] ∧ [johnClient] ≠ ([] : List Client))
  ∧ (searchClients dbJohn "J%e" = [johnClient]
      ∧ ciSubstr "J%e" johnClient.name = false
      ∧ ciSubstr "J%e" johnClient.clientId = false
      ∧ ciSubstr "J%e" johnClient.phone = false)
  ∧ (searchClients dbJohn "J_hn" = [johnClient]
      ∧ ciSubstr "J_hn" johnClient.name = false
      ∧ ciSubstr "J_hn" johnClient.clientId = false
      ∧ ciSubstr "J_hn" johnClient.phone = false)
  ∧ (searchClients dbJohn "Jo\\h" = [johnClient]
      ∧ ciSubstr "Jo\\h" johnClient.name = false
      ∧ ciSubstr "Jo\\h" johnClient.clientId = false
      ∧ ciSubstr "Jo\\h" johnClient.phone = false) := by
  have run : ∀ q : String, q ≠ "" →
      ilike johnClient.name ("%" ++ q ++ "%") = true →
      searchClients dbJohn q = [johnClient] := by
    intro q h0 hp
    simp [searchClients, if_neg h0, dbJohn, List.filter_cons, hp]
  have hname : lowerStr johnClient.name = "john doe".data := by decide
  refine ⟨⟨?_, by decide⟩, ⟨?_, by decide, by decide, by decide⟩,
    ⟨?_, by decide, by decide, by decide⟩, ⟨?_, by decide, by decide, by decide⟩⟩
  · refine run " " (by decide) ?_
    have hp : lowerStr ("%" ++ " " ++ "%") = "% %".data := by decide
    unfold ilike
    rw [hp, hname]
    simp [likeMatch]
  · refine run "J%e" (by decide) ?_
    have hp : lowerStr ("%" ++ "J%e" ++ "%") = "%j%e%".data := by decide
    unfold ilike
    rw [hp, hname]
    simp [likeMatch]
  · refine run "J_hn" (by decide) ?_
    have hp : lowerStr ("%" ++ "J_hn" ++ "%") = "%j_hn%".data := by decide
    unfold ilike
    rw [hp, hname]
    simp [likeMatch]
  · refine run "Jo\\h" (by decide) ?_
    have hp : lowerStr ("%" ++ "Jo\\h" ++ "%") = "%jo\\h%".data := by decide
    unfold ilike
    rw [hp, hname]
    simp [likeMatch]

/-- C5 (amended): the empty query returns the empty result set, and every
 non-empty query free of the LIKE metacharacters `%` and `_` and of the
 escape character `\` returns exactly the clients for which the query is a
 case-insensitive substring of the name, the clientId or the phone field; a
 whitespace-only query is not special-cased and is matched like any
 other. -/
theorem c5_searchClients_amended (st : DB) (q : String) :
    searchClients st "" = []
  ∧ (q ≠ "" → (∀ c ∈ q.data, c ≠ '%' ∧ c ≠ '_' ∧ c ≠ '\\') →
      searchClients st q = st.clients.filter (fun c =>
        ciSubstr q c.name || ciSubstr q c.clientId || ciSubstr q c.phone)) := by
  constructor
  · simp [searchClients]
  · intro h0 hw
    exact searchClients_eq_filter st q h0 hw

/-- C5 witness: the query "jo" finds the client named "John Doe". -/
theorem c5_searchClients_amended_witness :
    searchClients dbJohn "" = [] ∧ searchClients dbJohn "jo" = [johnClient] :=
  ⟨(c5_searchClients_amended dbJohn "jo").1,
   ((c5_searchClients_amended dbJohn "jo").2 (by decide) (by decide)).trans
     (by decide)⟩

/-- C6: `getProgramsWithEnrollmentCount` pairs every program — in table
 order, zero-enrollment programs included — with exactly the number of
 enrollment rows whose programId matches it; a program absent from the
 group-by aggregate falls back to the count 0. -/
theorem c6_programs_with_enrollment_count (st : DB) :
    getProgramsWithEnrollmentCount st
      = st.programs.map (fun p =>
          (p, (st.enrollments.filter (fun e => e.programId == p.id)).length)) := by
  unfold getProgramsWithEnrollmentCount
  exact List.map_congr_left (fun p _ => by rw [lookup_groupByCounts])

/-- C7: `deleteEnrollment` reports true exactly when a row with the given
 (clientId, programId) pair existed, leaves no matching row behind, returns
 false — not an error — when invoked again on the same pair, and the DELETE
 route maps the boolean onto 204/404. -/
theorem c7_deleteEnrollment_found_flag (st : DB) (cid pid : Nat) :
    ((deleteEnrollment st cid pid).1 = true
        ↔ ∃ e ∈ st.enrollments, e.clientId = cid ∧ e.programId = pid)
  ∧ (∀ e ∈ (deleteEnrollment st cid pid).2.enrollments,
        ¬(e.clientId = cid ∧ e.programId = pid))
  ∧ (deleteEnrollment (deleteEnrollment st cid pid).2 cid pid).1 = false
  ∧ deleteEnrollmentRoute st cid pid
      = (if (deleteEnrollment st cid pid).1 then
          ((⟨204, none⟩ : Resp), (deleteEnrollment st cid pid).2)
        else
          ((⟨404, some "Enrollment not found"⟩ : Resp),
            (deleteEnrollment st cid pid).2)) := by
  refine ⟨?_, ?_, ?_, rfl⟩
  · simp [deleteEnrollment, filter_length_pos_iff]
  · intro e he hcontra
    simp [deleteEnrollment, List.mem_filter, hcontra.1, hcontra.2] at he
  · simp [deleteEnrollment, List.filter_filter]

/-- C7 witness: deleting the one enrollment of `dbEnrolled` reports true,
 deleting it again reports false. -/
theorem c7_deleteEnrollment_found_flag_witness :
    (deleteEnrollment dbEnrolled 1 1).1 = true
  ∧ (deleteEnrollment (deleteEnrollment dbEnrolled 1 1).2 1 1).1 = false :=
  ⟨((c7_deleteEnrollment_found_flag dbEnrolled 1 1).1).mpr
      ⟨baseEnrollment, by decide, rfl, rfl⟩,
   (c7_deleteEnrollment_found_flag dbEnrolled 1 1).2.2.1⟩

/-- C8: the POST /api/enrollments handler resolves both foreign keys before
 inserting: a clientId that does not resolve yields 404 "Client not found"
 with the state unchanged, and with the client present a programId that does
 not resolve yields 404 "Program not found" with the state unchanged. -/
theorem c8_postEnrollments_missing_refs (st : DB) (body : InsertEnrollment) :
    (getClientById st body.clientId = none →
        postEnrollments st body = (⟨404, some "Client not found"⟩, st))
  ∧ (getClientById st body.clientId ≠ none →
      getProgramById st body.programId = none →
        postEnrollments st body = (⟨404, some "Program not found"⟩, st)) := by
  constructor
  · intro h
    simp [postEnrollments, h]
  · intro h1 h2
    have h1b : (getClientById st body.clientId).isNone = false := by
      rcases ho : getClientById st body.clientId with _ | c
      · exact absurd ho h1
      · rfl
    simp [postEnrollments, h1b, h2]

/-- C8 witness: both 404 branches at concrete inputs on a one-client,
 one-program state. -/
theorem c8_postEnrollments_missing_refs_witness :
    postEnrollments dbEmptyEnroll wBodyNoClient
        = (⟨404, some "Client not found"⟩, dbEmptyEnroll)
  ∧ postEnrollments dbEmptyEnroll wBodyNoProgram
        = (⟨404, some "Program not found"⟩, dbEmptyEnroll) :=
  ⟨(c8_postEnrollments_missing_refs dbEmptyEnroll wBodyNoClient).1 (by decide),
   (c8_postEnrollments_missing_refs dbEmptyEnroll wBodyNoProgram).2
     (by decide) (by decide)⟩

/-- C9 counterexample: the POST /api/enrollments zod schema types
 symptomSeverity and riskLevel as plain optional strings, so values outside
 the documented enumerations are accepted and persisted through the public
 interface. -/
theorem c9_counterexample_unvalidated_enums :
    (postEnrollments dbEmptyEnroll wildBody).1.status = 201
  ∧ (postEnrollments dbEmptyEnroll wildBody).2.enrollments.map
        Enrollment.symptomSeverity = [some "critical"]
  ∧ (postEnrollments dbEmptyEnroll wildBody).2.enrollments.map
        Enrollment.riskLevel = [some "extreme"]
  ∧ "critical" ∉ (["mild", "moderate", "severe"] : List String)
  ∧ "extreme" ∉ (["low", "medium", "high"] : List String) := by
  refine ⟨by decide, by decide, by decide, by decide, by decide⟩

/-- C9 (amended): a stored enrollment's followUpRequired is a boolean
 defaulting to false, its status defaults to "active" when not supplied, and
 its symptomSeverity and riskLevel are carried over verbatim from the
 payload — optional free-form strings that the server does not check against
 the enumerations {mild, moderate, severe} / {low, medium, high}. -/
theorem c9_enrollment_fields (st : DB) (body : InsertEnrollment)
    (e : Enrollment) (st1 : DB)
    (h : createEnrollment st body = .ok (e, st1)) :
    e.status = body.status.getD "active"
  ∧ e.followUpRequired = body.followUpRequired.getD false
  ∧ e.symptomSeverity = body.symptomSeverity
  ∧ e.riskLevel = body.riskLevel
  ∧ st1.enrollments = st.enrollments ++ [e] := by
  unfold createEnrollment at h
  split at h
  · simp at h
  · simp only [Except.ok.injEq, Prod.mk.injEq] at h
    obtain ⟨he, hst⟩ := h
    subst he
    subst hst
    exact ⟨rfl, rfl, rfl, rfl, rfl⟩

/-- C9 witness: the theorem applied to a concrete successful insert. -/
theorem c9_enrollment_fields_witness :
    okEnrollment.status = okBody.status.getD "active"
  ∧ okEnrollment.followUpRequired = okBody.followUpRequired.getD false
  ∧ okEnrollment.symptomSeverity = okBody.symptomSeverity
  ∧ okEnrollment.riskLevel = okBody.riskLevel
  ∧ dbAfterOk.enrollments = dbEmptyEnroll.enrollments ++ [okEnrollment] :=
  c9_enrollment_fields dbEmptyEnroll okBody okEnrollment dbAfterOk rfl

/-- C10: a GET /api/clients request whose search parameter is present but
 empty never reaches `searchClients` — the JavaScript truthiness test treats
 "" as absent — and instead returns `getClients()`: all clients, ordered by
 descending id (newest first); the empty-query guard that yields the empty
 result set lives only inside `searchClients`. -/
theorem c10_clients_route_empty_search (st : DB) :
    clientsRoute st (some "") = getClients st
  ∧ (clientsRoute st (some "")).Perm st.clients
  ∧ List.Pairwise (fun a b : Client => b.id ≤ a.id) (clientsRoute st (some ""))
  ∧ searchClients st "" = [] := by
  have hroute : clientsRoute st (some "") = getClients st := by
    simp [clientsRoute]
  refine ⟨hroute, ?_, ?_, ?_⟩
  · rw [hroute]
    exact getClients_perm st
  · rw [hroute]
    exact getClients_sorted st
  · simp [searchClients]

end HealthIMS
